import Mathlib

/-!
Shallow embedding of the real-time interview session engine implemented in
`src/frontend/src/pages/InterviewInProgress.tsx`.

Modelling conventions:
* JavaScript numbers that only ever hold integers (scores, counters, history
  entries) are modelled as `ℤ`; fractional intermediate values (expression
  intensities, weighted sums fed to `Math.round`) are modelled as exact
  rationals `ℚ`.  Decimal literals of the source such as `0.7` are read as the
  exact rationals they denote (`7/10`).
* `Math.round` is modelled by `jsRound` below: round half toward positive
  infinity, which is the JavaScript behaviour on exact values.
* React `useState` cells become fields of explicit state records; a call to a
  `setX` updater becomes a functional update of the corresponding field, and a
  handler that reads and writes several cells becomes a state-passing function.
* The `async` function `detectFace` is split into its entry guard (evaluated
  against the state at call time, source lines 1174-1182) and its completion
  (the state mutations applied when the awaited detection resolves, source
  lines 1240-1366), so that interleavings with `endInterview` can be stated.
-/

namespace InterviewInProgress

/-- JavaScript `Math.round` on an exact rational value: round half toward
positive infinity, computably. -/
def jsRound (q : ℚ) : ℤ :=
  Int.fdiv (2 * q.num + q.den) (2 * q.den)

/-- Facial expression labels of the face detection provider, plus the
`unknown` placeholder the component uses when no face is visible
(`facialExpression` state, source line 56). -/
inductive Expression where
  | neutral | happy | sad | angry | fearful | disgusted | surprised | unknown
  deriving DecidableEq

/-- The fixed label list iterated by the dominant-expression loop
(source lines 1260-1268, array `expressions`). -/
def expressionsChecked : List Expression :=
  [.neutral, .happy, .sad, .angry, .fearful, .disgusted, .surprised]

/-- One detected face, as the component consumes it: the map from expression
label to intensity (`firstFace.expressions`, with non-numeric entries read as
0 by `getExpressionValue`, source lines 1249-1253). -/
def Face : Type := Expression → ℚ

/-- The dominant-expression loop of source lines 1255-1275: fold over the
fixed label list keeping the strictly largest intensity, starting from
`("neutral", 0)`. -/
def dominantLoop (face : Face) : List Expression → Expression × ℚ → Expression × ℚ
  | [], acc => acc
  | expr :: rest, acc =>
      dominantLoop face rest (if face expr > acc.2 then (expr, face expr) else acc)

/-- Dominant expression and its intensity for one face (source lines
1255-1275). -/
def dominantExpression (face : Face) : Expression × ℚ :=
  dominantLoop face expressionsChecked (Expression.neutral, 0)

/-- Confidence base score per dominant expression (the `switch` of source
lines 1299-1338): base plus the rounded scaled intensity. -/
def expressionScore (maxExpression : Expression) (dominantStrength : ℚ) : ℤ :=
  match maxExpression with
  | .happy => 50 + jsRound (dominantStrength * 50)
  | .neutral => 40 + jsRound (dominantStrength * 20)
  | .surprised => 30 + jsRound (dominantStrength * 20)
  | .sad => 15 + jsRound (dominantStrength * 25)
  | .fearful => 10 + jsRound (dominantStrength * 25)
  | .angry => 10 + jsRound (dominantStrength * 20)
  | .disgusted => 10 + jsRound (dominantStrength * 20)
  | .unknown => 50

/-- Temporal smoothing of source lines 1342-1345: blend 70% of the new raw
expression score with 30% of the previous confidence, but only when the
previous confidence was strictly positive. -/
def newScore (score confidenceScore : ℤ) : ℤ :=
  if confidenceScore > 0 then
    jsRound ((7 : ℚ) / 10 * score + (3 : ℚ) / 10 * confidenceScore)
  else score

/-- Clamp of source line 1348: `Math.max(10, Math.min(100, newScore))`. -/
def boundedScore (n : ℤ) : ℤ := max 10 (min 100 n)

/-- PerceptionState: the three perception-owned `useState` cells
(`confidenceScore`, `facialExpression`, `faceDetectionSuccess`, source lines
56-58). -/
structure PerceptionState where
  confidenceScore : ℤ
  facialExpression : Expression
  faceDetectionSuccess : ℤ
  deriving DecidableEq

/-- Face-present branch of `detectFace` (source lines 1240-1351): bump the
consecutive-hit counter capped at 10, commit the dominant expression only when
its intensity exceeds 0.3 or the previous display was unknown/neutral, then
smooth and clamp the confidence score. -/
def applyFacePresent (st : PerceptionState) (face : Face) : PerceptionState :=
  let md := dominantExpression face
  { faceDetectionSuccess := min (st.faceDetectionSuccess + 1) 10
    facialExpression :=
      if md.2 > 3 / 10 ∨ st.facialExpression = .unknown ∨ st.facialExpression = .neutral
      then md.1 else st.facialExpression
    confidenceScore := boundedScore (newScore (expressionScore md.1 md.2) st.confidenceScore) }

/-- No-face branch of `detectFace` (source lines 1352-1366): force confidence
to 0, decrement the hit counter floored at 0, display `unknown`. -/
def applyNoFace (st : PerceptionState) : PerceptionState :=
  { confidenceScore := 0
    facialExpression := .unknown
    faceDetectionSuccess := max 0 (st.faceDetectionSuccess - 1) }

/-- Dispatch on the detection result (`if (faces && faces.length > 0)`,
source line 1240): the first detected face is used, an empty list is the
no-face case. -/
def detectFaceResult (st : PerceptionState) (faces : List Face) : PerceptionState :=
  match faces with
  | [] => applyNoFace st
  | face :: _ => applyFacePresent st face

/-- Metric average of `endInterview` (source lines 1487-1491): 0 on an empty
history, otherwise the rounded arithmetic mean. -/
def calculateAverage (arr : List ℤ) : ℤ :=
  if arr.length = 0 then 0 else jsRound ((arr.sum : ℚ) / (arr.length : ℚ))

/-- Weighted overall score of `endInterview` (source lines 1522-1525). -/
def overallScore (avgConfidence avgRelevance avgCommunication : ℤ) : ℤ :=
  jsRound ((avgConfidence : ℚ) * (3 / 10) + (avgRelevance : ℚ) * (4 / 10)
    + (avgCommunication : ℚ) * (3 / 10))

/-- The three metric averages and the overall score exactly as `endInterview`
derives them from the three history arrays (source lines 1496-1525). -/
def reportAverages (confidenceHistory relevanceHistory communicationHistory : List ℤ) :
    ℤ × ℤ × ℤ × ℤ :=
  let avgConfidence := calculateAverage confidenceHistory
  let avgRelevance := calculateAverage relevanceHistory
  let avgCommunication := calculateAverage communicationHistory
  (avgConfidence, avgRelevance, avgCommunication,
    overallScore avgConfidence avgRelevance avgCommunication)

/-- Which of the three averaged metrics a feedback line names. -/
inductive Metric where
  | confidence | communication | relevance
  deriving DecidableEq

/-- Value of the named metric among the three averages. -/
def metricAvg (avgConfidence avgRelevance avgCommunication : ℤ) : Metric → ℤ
  | .confidence => avgConfidence
  | .relevance => avgRelevance
  | .communication => avgCommunication

/-- Metric named by the synthesized strength feedback line (source lines
1551-1561): nested strict comparisons. -/
def strengthFeedback (avgConfidence avgRelevance avgCommunication : ℤ) : Metric :=
  if avgConfidence > avgCommunication ∧ avgConfidence > avgRelevance then .confidence
  else if avgCommunication > avgRelevance then .communication
  else .relevance

/-- Metric named by the synthesized improvement feedback line (source lines
1562-1571). -/
def improvementFeedback (avgConfidence avgRelevance avgCommunication : ℤ) : Metric :=
  if avgConfidence < avgCommunication ∧ avgConfidence < avgRelevance then .confidence
  else if avgCommunication < avgRelevance then .communication
  else .relevance

/-- ASCII case folding, the fragment of JavaScript `toLowerCase` exercised by
the question bank and answer text. -/
def asciiToLower (c : Char) : Char :=
  if 'A' ≤ c && c ≤ 'Z' then Char.ofNat (c.toNat + 32) else c

/-- Exact list-prefix test. -/
def listPrefixOf : List Char → List Char → Bool
  | [], _ => true
  | _ :: _, [] => false
  | a :: as, b :: bs => a = b && listPrefixOf as bs

/-- Exact list-substring test, the semantics of JavaScript
`String.prototype.includes`. -/
def listInfixOf (needle : List Char) : List Char → Bool
  | [] => needle.isEmpty
  | b :: bs => listPrefixOf needle (b :: bs) || listInfixOf needle bs

/-- Matched key-phrase count of the relevance effect (source lines 1426-1433):
each phrase counts at most once, compared case-insensitively as a substring of
the lowercased answer. -/
def matchedPhrases (lowerCaseAnswer : List Char) (keyPhrases : List String) : ℕ :=
  (keyPhrases.filter
    (fun phrase => listInfixOf (phrase.data.map asciiToLower) lowerCaseAnswer)).length

/-- Relevance score of the scoring effect (source lines 1409-1442): 0 for an
empty answer (the effect sets 0 and returns before matching), otherwise
`min(round(matched / min(5, #keyPhrases) * 100), 100)`. -/
def relevanceScoreCalc (userAnswer : String) (keyPhrases : List String) : ℤ :=
  if userAnswer = "" then 0
  else
    min
      (jsRound ((matchedPhrases (userAnswer.data.map asciiToLower) keyPhrases : ℚ)
        / ((min 5 keyPhrases.length : ℕ) : ℚ) * 100))
      100

/-- Question record as generated for a session (source lines 86-93). -/
structure Question where
  id : ℕ
  question : String
  expectedTopics : List String
  keyPhrases : List String
  deriving DecidableEq

/-- SessionState: the `useState` cells of the component that the lifecycle
controller, the aggregator and the perception loop share, plus `submitCount`,
which counts completed `axios.post` submission attempts of `endInterview`
(source lines 1605-1616); the source performs one such attempt per
`endInterview` invocation. -/
structure SessionState where
  currentQuestion : ℕ
  questions : List Question
  userAnswer : String
  speechToText : String
  answers : List String
  isThinking : Bool
  isListening : Bool
  isShuttingDown : Bool
  cameraActive : Bool
  modelsLoaded : Bool
  relevanceScore : ℤ
  communicationScore : ℤ
  confidenceHistory : List ℤ
  relevanceHistory : List ℤ
  communicationHistory : List ℤ
  perception : PerceptionState
  submitCount : ℕ
  deriving DecidableEq

/-- JavaScript array index assignment `arr[i] = v`, with holes filled by the
empty string (the component only ever writes at the cursor, which is at most
one past the filled prefix). -/
def listWrite (l : List String) (i : ℕ) (v : String) : List String :=
  if i < l.length then l.set i v
  else l ++ List.replicate (i - l.length) "" ++ [v]

/-- saveAnswerForCurrentQuestion (source lines 1445-1449): freeze the live
answer into the answers array at the cursor. -/
def saveAnswerForCurrentQuestion (s : SessionState) : SessionState :=
  { s with answers := listWrite s.answers s.currentQuestion s.userAnswer }

/-- saveCurrentMetrics (source lines 1451-1456): append the three current
scores, one entry to each history array. -/
def saveCurrentMetrics (s : SessionState) : SessionState :=
  { s with
    confidenceHistory := s.confidenceHistory ++ [s.perception.confidenceScore]
    relevanceHistory := s.relevanceHistory ++ [s.relevanceScore]
    communicationHistory := s.communicationHistory ++ [s.communicationScore] }

/-- endInterview (source lines 1458-1647), as a state transformer: set the
shutdown flag, disable the camera, freeze the final answer, append the final
metric sample, stop speech capture if active, then perform the submission
attempt.  The source has no entry guard: none of these steps is conditional
on `isShuttingDown` already being set. -/
def endInterview (s : SessionState) : SessionState :=
  let s1 := { s with isShuttingDown := true, cameraActive := false }
  let s2 := saveCurrentMetrics (saveAnswerForCurrentQuestion s1)
  let s3 := if s2.isListening then { s2 with isListening := false } else s2
  { s3 with submitCount := s3.submitCount + 1 }

/-- nextQuestion (source lines 1649-1664): freeze the answer and snapshot the
metrics, then either advance the cursor and clear the live buffers, or, on
the last question, route to `endInterview`. -/
def nextQuestion (s : SessionState) : SessionState :=
  let s1 := saveCurrentMetrics (saveAnswerForCurrentQuestion s)
  if s.currentQuestion < s.questions.length - 1 then
    { s1 with
      currentQuestion := s.currentQuestion + 1
      userAnswer := ""
      speechToText := ""
      isThinking := false }
  else endInterview s1

/-- Entry guard of `detectFace` (source lines 1174-1182), evaluated against
the state at call time; the webcam reference and video element are modelled
as available. -/
def detectFaceGuard (s : SessionState) : Bool :=
  !s.isShuttingDown && s.modelsLoaded && s.cameraActive

/-- Completion of `detectFace` (source lines 1240-1366) applied to a session
state: only the perception cells are mutated. -/
def detectFaceComplete (s : SessionState) (faces : List Face) : SessionState :=
  { s with perception := detectFaceResult s.perception faces }

/-- One full `detectFace` call whose entry guard ran against `sStart` and
whose awaited detection resolved when the state had become `sEnd`: the source
re-checks nothing at completion time, so a call that passed the guard applies
its result unconditionally. -/
def detectFaceInFlight (sStart sEnd : SessionState) (faces : List Face) : SessionState :=
  if detectFaceGuard sStart then detectFaceComplete sEnd faces else sEnd

/-- JavaScript \w character class (ASCII word character). -/
def isWordChar (c : Char) : Bool :=
  ('a' ≤ c && c ≤ 'z') || ('A' ≤ c && c ≤ 'Z') || ('0' ≤ c && c ≤ '9') || c = '_'

/-- JavaScript \s character class, restricted to ASCII whitespace. -/
def isSpaceChar (c : Char) : Bool :=
  c = ' ' || c = '\t' || c = '\n' || c = '\r' || c.toNat = 11 || c.toNat = 12

/-- Character class [A-Z]. -/
def isUpperAZ (c : Char) : Bool := 'A' ≤ c && c ≤ 'Z'

/-- Character class [.!?], sentence-terminating punctuation. -/
def isTerminalPunct (c : Char) : Bool := c = '.' || c = '!' || c = '?'

/-- Maximal run of word characters at the head of the list, with the rest. -/
def takeWordRun : List Char → List Char × List Char
  | [] => ([], [])
  | c :: cs =>
      if isWordChar c then
        let r := takeWordRun cs
        (c :: r.1, r.2)
      else ([], c :: cs)

/-- Maximal run of whitespace characters at the head of the list. -/
def takeSpaceRun : List Char → List Char × List Char
  | [] => ([], [])
  | c :: cs =>
      if isSpaceChar c then
        let r := takeSpaceRun cs
        (c :: r.1, r.2)
      else ([], c :: cs)

/-- Case-insensitive list-prefix test (ASCII folding), the behaviour of the
regex flag i on literals and backreferences. -/
def listPrefixCIOf : List Char → List Char → Bool
  | [], _ => true
  | _ :: _, [] => false
  | a :: as, b :: bs => asciiToLower a = asciiToLower b && listPrefixCIOf as bs

/-- Word-boundary test for the position right after a matched literal. -/
def boundaryAfter (w : List Char) (l : List Char) : Bool :=
  match List.drop w.length l with
  | [] => true
  | d :: _ => !isWordChar d

/-- Scanner for the repeated-word pattern of source line 1777,
regex \b(\w+)\s+\1\b with flags g and i: at a left word boundary, a maximal
word run, mandatory whitespace, and the same word again (case-insensitively)
ending at a word boundary.  The first fuel argument bounds the recursion and
is instantiated with the text length plus one; the Bool argument tracks
whether the previous character was a word character. -/
def repeatedWordScan : ℕ → Bool → List Char → ℕ
  | 0, _, _ => 0
  | _ + 1, _, [] => 0
  | fuel + 1, prevWord, c :: cs =>
      if !prevWord && isWordChar c then
        let w1 := takeWordRun (c :: cs)
        let sp := takeSpaceRun w1.2
        let w2 := takeWordRun sp.2
        if !sp.1.isEmpty && w1.1.map asciiToLower = w2.1.map asciiToLower then
          1 + repeatedWordScan fuel true w2.2
        else repeatedWordScan fuel (isWordChar c) cs
      else repeatedWordScan fuel (isWordChar c) cs

/-- Match count of regex \b(\w+)\s+\1\b (flags g, i) on the text. -/
def countRepeatedWord (text : List Char) : ℕ :=
  repeatedWordScan (text.length + 1) false text

/-- Scanner for the missing-period pattern of source line 1779, regex
\w+\s+[A-Z] with flag g: a word run, whitespace, then an uppercase letter;
each match consumes through the uppercase letter. -/
def missingPunctScan : ℕ → List Char → ℕ
  | 0, _ => 0
  | _ + 1, [] => 0
  | fuel + 1, c :: cs =>
      if isWordChar c then
        let w := takeWordRun (c :: cs)
        let sp := takeSpaceRun w.2
        if !sp.1.isEmpty then
          match sp.2 with
          | d :: ds => if isUpperAZ d then 1 + missingPunctScan fuel ds
                       else missingPunctScan fuel cs
          | [] => missingPunctScan fuel cs
        else missingPunctScan fuel cs
      else missingPunctScan fuel cs

/-- Match count of regex \w+\s+[A-Z] (flag g) on the text. -/
def countMissingPunct (text : List Char) : ℕ :=
  missingPunctScan (text.length + 1) text

/-- Walk a chain of whitespace-separated words: returns the number of words
consumed and the remainder immediately after the last word of the chain. -/
def chainWords : ℕ → List Char → ℕ × List Char
  | 0, l => (0, l)
  | fuel + 1, l =>
      let w := takeWordRun l
      if w.1.isEmpty then (0, l)
      else
        let sp := takeSpaceRun w.2
        if sp.1.isEmpty then (1, w.2)
        else
          match sp.2 with
          | d :: _ =>
              if isWordChar d then
                let r := chainWords fuel sp.2
                (1 + r.1, r.2)
              else (1, w.2)
          | [] => (1, w.2)

/-- Scanner for the run-on-sentence pattern of source line 1781, regex
\b(\w+\s+){40,}\w+[.!?] with flag g: at least 41 whitespace-separated words
whose last word is immediately followed by sentence-ending punctuation. -/
def runOnScan : ℕ → Bool → List Char → ℕ
  | 0, _, _ => 0
  | _ + 1, _, [] => 0
  | fuel + 1, prevWord, c :: cs =>
      if !prevWord && isWordChar c then
        let r := chainWords (cs.length + 1) (c :: cs)
        match r.2 with
        | d :: ds =>
            if r.1 ≥ 41 && isTerminalPunct d then 1 + runOnScan fuel false ds
            else runOnScan fuel (isWordChar c) cs
        | [] => runOnScan fuel (isWordChar c) cs
      else runOnScan fuel (isWordChar c) cs

/-- Match count of regex \b(\w+\s+){40,}\w+[.!?] (flag g) on the text. -/
def countRunOn (text : List Char) : ℕ :=
  runOnScan (text.length + 1) false text

/-- First alternative of a word-alternation regex that matches at this
position with a trailing word boundary, returning the remainder after it.
Every alternative in the source starts and ends with a word character. -/
def findAlt : List (List Char) → List Char → Option (List Char)
  | [], _ => none
  | w :: ws, l =>
      if listPrefixCIOf w l && boundaryAfter w l then some (List.drop w.length l)
      else findAlt ws l

/-- Scanner for a regex of the shape \b(w1|w2|...)\b with flags g and i:
alternatives are tried in order at each left word boundary. -/
def wordListScan (words : List (List Char)) : ℕ → Bool → List Char → ℕ
  | 0, _, _ => 0
  | _ + 1, _, [] => 0
  | fuel + 1, prevWord, c :: cs =>
      if !prevWord then
        match findAlt words (c :: cs) with
        | some rest => 1 + wordListScan words fuel true rest
        | none => wordListScan words fuel (isWordChar c) cs
      else wordListScan words fuel (isWordChar c) cs

/-- Match count of \b(w1|w2|...)\b (flags g, i) on the text. -/
def countWordAlternatives (words : List String) (text : List Char) : ℕ :=
  wordListScan (words.map String.data) (text.length + 1) false text

/-- First verb alternative matching at this position with a trailing word
boundary. -/
def verbTry : List (List Char) → List Char → Option (List Char)
  | [], _ => none
  | v :: vs, l =>
      if listPrefixCIOf v l && boundaryAfter v l then some (List.drop v.length l)
      else verbTry vs l

/-- Subject alternatives with backtracking: a subject literal, mandatory
whitespace, then a verb alternative ending at a word boundary. -/
def svaTry : List (List Char) → List (List Char) → List Char → Option (List Char)
  | [], _, _ => none
  | s :: ss, verbs, l =>
      if listPrefixCIOf s l then
        let sp := takeSpaceRun (List.drop s.length l)
        if !sp.1.isEmpty then
          match verbTry verbs sp.2 with
          | some rest => some rest
          | none => svaTry ss verbs l
        else svaTry ss verbs l
      else svaTry ss verbs l

/-- Scanner for the subject-verb-agreement patterns of source lines
1788-1789, regexes of the shape \b(s1|s2|s3)\s+(v1|v2|v3)\b with flags g
and i. -/
def svaScan (subjects verbs : List (List Char)) : ℕ → Bool → List Char → ℕ
  | 0, _, _ => 0
  | _ + 1, _, [] => 0
  | fuel + 1, prevWord, c :: cs =>
      if !prevWord then
        match svaTry subjects verbs (c :: cs) with
        | some rest => 1 + svaScan subjects verbs fuel true rest
        | none => svaScan subjects verbs fuel (isWordChar c) cs
      else svaScan subjects verbs fuel (isWordChar c) cs

/-- Match count of \b(s1|...)\s+(v1|...)\b (flags g, i) on the text. -/
def countSVA (subjects verbs : List String) (text : List Char) : ℕ :=
  svaScan (subjects.map String.data) (verbs.map String.data) (text.length + 1) false text

/-- Remainder of the list just after the first sentence-ending punctuation
character, if any. -/
def splitAtTerminal : ℕ → List Char → Option (List Char)
  | 0, _ => none
  | _ + 1, [] => none
  | fuel + 1, c :: cs =>
      if isTerminalPunct c then some cs else splitAtTerminal fuel cs

/-- Scanner for the complete-sentence pattern of source line 1801, regex
[A-Z][^.!?]*[.!?] with flag g: an uppercase letter, then everything up to and
including the next sentence-ending punctuation character. -/
def sentenceScan : ℕ → List Char → ℕ
  | 0, _ => 0
  | _ + 1, [] => 0
  | fuel + 1, c :: cs =>
      if isUpperAZ c then
        match splitAtTerminal (cs.length + 1) cs with
        | some rest => 1 + sentenceScan fuel rest
        | none => sentenceScan fuel cs
      else sentenceScan fuel cs

/-- Match count of regex [A-Z][^.!?]*[.!?] (flag g) on the text. -/
def countCompleteSentences (text : List Char) : ℕ :=
  sentenceScan (text.length + 1) text

/-- Filler-word list of source line 1784. -/
def fillerWords : List String :=
  ["um", "uh", "like", "you know", "basically", "actually", "literally"]

/-- Transition-word list of source line 1797. -/
def transitionWords : List String :=
  ["first", "second", "third", "finally", "in conclusion", "therefore",
    "consequently", "however", "moreover", "furthermore"]

/-- Technical-term list of source line 1805. -/
def technicalTerms : List String :=
  ["algorithm", "function", "component", "state", "props", "hook", "api",
    "interface", "dependency", "framework", "library"]

/-- Total penalty sum of `evaluateCommunication` (source lines 1775-1815):
each match count times the weight of its pattern. -/
def grammarPenalties (text : List Char) : ℤ :=
  (countRepeatedWord text : ℤ) * 5
    + (countMissingPunct text : ℤ) * 3
    + (countRunOn text : ℤ) * 10
    + (countWordAlternatives fillerWords text : ℤ) * 2
    + (countSVA ["he", "she", "it"] ["are", "were", "have been"] text : ℤ) * 5
    + (countSVA ["they", "we", "you"] ["is", "was", "has been"] text : ℤ) * 5

/-- Total bonus sum of `evaluateCommunication` (source lines 1793-1822). -/
def positiveBonuses (text : List Char) : ℤ :=
  (countWordAlternatives transitionWords text : ℤ) * 5
    + (countCompleteSentences text : ℤ) * 3
    + (countWordAlternatives technicalTerms text : ℤ) * 2

/-- evaluateCommunication (source lines 1771-1835): 0 on empty text, else 70
minus penalties plus bonuses, capped at 40 below 50 characters, clamped to
[0, 100]. -/
def evaluateCommunication (text : String) : ℤ :=
  if text = "" then 0
  else
    let score := 70 - grammarPenalties text.data + positiveBonuses text.data
    max 0 (min 100 (if text.length < 50 then min score 40 else score))

/-- Modelled from the words of the specification, for comparison with
`evaluateCommunication`: the claimed communication formula, stated for every
answer text with no empty-text special case. -/
def specCommunicationScore (text : String) : ℤ :=
  let score := 70 - grammarPenalties text.data + positiveBonuses text.data
  max 0 (min 100 (if text.length < 50 then min score 40 else score))

/-- Histories-aligned invariant: the three metric history arrays have equal
length. -/
def historiesAligned (s : SessionState) : Prop :=
  s.confidenceHistory.length = s.relevanceHistory.length ∧
    s.relevanceHistory.length = s.communicationHistory.length

/-- Modelled from the words of the specification, for comparison with
`strengthFeedback`: the highest of the three averages, ties broken in the
claimed order confidence, then communication, then relevance. -/
def specTieStrength (avgConfidence avgRelevance avgCommunication : ℤ) : Metric :=
  if avgConfidence ≥ avgCommunication ∧ avgConfidence ≥ avgRelevance then .confidence
  else if avgCommunication ≥ avgRelevance then .communication
  else .relevance

/-- Modelled from the words of the specification, for comparison with
`improvementFeedback`: the lowest of the three averages, ties broken in the
claimed order confidence, then communication, then relevance. -/
def specTieImprovement (avgConfidence avgRelevance avgCommunication : ℤ) : Metric :=
  if avgConfidence ≤ avgCommunication ∧ avgConfidence ≤ avgRelevance then .confidence
  else if avgCommunication ≤ avgRelevance then .communication
  else .relevance

/-- Tie-break order the code actually implements for the strength line:
relevance preferred, then communication, then confidence. -/
def observedTieStrength (avgConfidence avgRelevance avgCommunication : ℤ) : Metric :=
  if avgRelevance ≥ avgConfidence ∧ avgRelevance ≥ avgCommunication then .relevance
  else if avgCommunication ≥ avgConfidence then .communication
  else .confidence

/-- Tie-break order the code actually implements for the improvement line:
relevance preferred, then communication, then confidence. -/
def observedTieImprovement (avgConfidence avgRelevance avgCommunication : ℤ) : Metric :=
  if avgRelevance ≤ avgConfidence ∧ avgRelevance ≤ avgCommunication then .relevance
  else if avgCommunication ≤ avgConfidence then .communication
  else .confidence

/-- A question of the built-in bank (source lines 407-424). -/
def sampleQuestion : Question :=
  { id := 1
    question := "Explain the concept of React hooks and how they improve functional components."
    expectedTopics := ["useState", "useEffect", "Custom hooks", "Rules of hooks"]
    keyPhrases := ["state management", "useState", "useEffect", "reusable logic"] }

/-- A concrete reachable mid-session state: two questions, cursor on the
first, camera and models up, one live answer, no samples recorded yet. -/
def sampleSession : SessionState :=
  { currentQuestion := 0
    questions := [sampleQuestion, { sampleQuestion with id := 2 }]
    userAnswer := "I use state"
    speechToText := ""
    answers := []
    isThinking := false
    isListening := true
    isShuttingDown := false
    cameraActive := true
    modelsLoaded := true
    relevanceScore := 25
    communicationScore := 40
    confidenceHistory := []
    relevanceHistory := []
    communicationHistory := []
    perception := { confidenceScore := 0, facialExpression := .unknown, faceDetectionSuccess := 0 }
    submitCount := 0 }

/-- A detected face whose happy intensity is 0.9 and whose other intensities
are 0. -/
def faceHappy : Face := fun e =>
  match e with
  | .happy => 9 / 10
  | _ => 0

/-- Characterisation of `jsRound`: it is the floor of the argument plus one
half, the textbook round-half-up function. -/
theorem jsRound_eq_floor (q : ℚ) : jsRound q = ⌊q + 1 / 2⌋ := by
  have hden0 : (q.den : ℚ) ≠ 0 := Nat.cast_ne_zero.mpr q.den_nz
  have h1 : q + 1 / 2 = ((2 * q.num + (q.den : ℤ) : ℤ) : ℚ) / ((2 * q.den : ℕ) : ℚ) := by
    conv_lhs => rw [← Rat.num_div_den q]
    push_cast
    field_simp
    ring
  rw [h1, Rat.floor_intCast_div_natCast]
  unfold jsRound
  have h2 : (0 : ℤ) ≤ (2 * q.den : ℕ) := Int.natCast_nonneg _
  rw [Int.fdiv_eq_ediv _ (by positivity)]
  norm_num

/-- Monotonicity fact used to push bounds through `jsRound`. -/
theorem jsRound_nonneg {q : ℚ} (h : 0 ≤ q) : 0 ≤ jsRound q := by
  rw [jsRound_eq_floor]
  have : (0 : ℚ) ≤ q + 1 / 2 := by linarith
  exact_mod_cast Int.le_floor.mpr (by exact_mod_cast this)

/-- Unfolded form of `calculateAverage` in terms of the floor function. -/
theorem calculateAverage_eq (h : List ℤ) :
    calculateAverage h = if h = [] then 0 else ⌊(h.sum : ℚ) / (h.length : ℚ) + 1 / 2⌋ := by
  unfold calculateAverage
  rcases eq_or_ne h [] with rfl | hne
  · simp
  · rw [if_neg (by simpa [List.length_eq_zero] using hne), if_neg hne, jsRound_eq_floor]

/-- Unfolded form of `overallScore` in terms of the floor function. -/
theorem overallScore_eq (a r c : ℤ) :
    overallScore a r c = ⌊(3 / 10 : ℚ) * a + (4 / 10 : ℚ) * r + (3 / 10 : ℚ) * c + 1 / 2⌋ := by
  unfold overallScore
  rw [jsRound_eq_floor]
  congr 1
  ring

/-- Claim C3: at session end, each metric average equals the arithmetic mean
of that metric history rounded to the nearest integer (0 when the history is
empty), and the overall score equals
round(0.3 avgConfidence + 0.4 avgRelevance + 0.3 avgCommunication) computed
from those averages. -/
theorem session_end_averages (ch rh mh : List ℤ) :
    (reportAverages ch rh mh).1 =
      (if ch = [] then 0 else ⌊(ch.sum : ℚ) / (ch.length : ℚ) + 1 / 2⌋) ∧
    (reportAverages ch rh mh).2.1 =
      (if rh = [] then 0 else ⌊(rh.sum : ℚ) / (rh.length : ℚ) + 1 / 2⌋) ∧
    (reportAverages ch rh mh).2.2.1 =
      (if mh = [] then 0 else ⌊(mh.sum : ℚ) / (mh.length : ℚ) + 1 / 2⌋) ∧
    (reportAverages ch rh mh).2.2.2 =
      ⌊(3 / 10 : ℚ) * ((reportAverages ch rh mh).1 : ℚ)
        + (4 / 10 : ℚ) * ((reportAverages ch rh mh).2.1 : ℚ)
        + (3 / 10 : ℚ) * ((reportAverages ch rh mh).2.2.1 : ℚ) + 1 / 2⌋ := by
  refine ⟨calculateAverage_eq ch, calculateAverage_eq rh, calculateAverage_eq mh, ?_⟩
  exact overallScore_eq _ _ _

/-- Claim C4: on a face-present sample the new confidence is the smoothing of
the raw expression score with the previous confidence when the latter is
nonzero, the raw score itself otherwise, clamped to [10, 100]; in particular
prior confidence 60 with raw score 90 yields 81. -/
theorem face_present_confidence_smoothing (st : PerceptionState) (face : Face)
    (raw prev : ℤ) (hprev : 0 ≤ prev) :
    (applyFacePresent st face).confidenceScore =
      boundedScore (newScore
        (expressionScore (dominantExpression face).1 (dominantExpression face).2)
        st.confidenceScore) ∧
    (prev ≠ 0 → boundedScore (newScore raw prev) =
      max 10 (min 100 ⌊(7 : ℚ) / 10 * raw + (3 : ℚ) / 10 * prev + 1 / 2⌋)) ∧
    (prev = 0 → boundedScore (newScore raw prev) = max 10 (min 100 raw)) ∧
    boundedScore (newScore 90 60) = 81 := by
  refine ⟨rfl, ?_, ?_, ?_⟩
  · intro hne
    have hpos : prev > 0 := lt_of_le_of_ne hprev (Ne.symm hne)
    unfold boundedScore newScore
    rw [if_pos hpos, jsRound_eq_floor]
  · intro h0
    unfold boundedScore newScore
    rw [if_neg (by omega)]
  · unfold boundedScore newScore
    rw [if_pos (by decide)]
    norm_num [jsRound]
    decide

/-- Claim C4 witness: the theorem applied at prior confidence 60 and raw
score 90. -/
theorem face_present_confidence_smoothing_witness :
    (0 : ℤ) ≤ 60 ∧ boundedScore (newScore 90 60) = 81 :=
  ⟨by decide,
    (face_present_confidence_smoothing ⟨0, .unknown, 0⟩ (fun _ => 0) 90 60 (by decide)).2.2.2⟩

/-- Claim C5: a zero-face sample forces confidence to 0 and the displayed
expression to unknown, and decrements the consecutive-hit counter floored at
0, regardless of the prior perception state. -/
theorem no_face_sample_resets (st : PerceptionState) :
    (detectFaceResult st []).confidenceScore = 0 ∧
    (detectFaceResult st []).facialExpression = Expression.unknown ∧
    (detectFaceResult st []).faceDetectionSuccess = max 0 (st.faceDetectionSuccess - 1) :=
  ⟨rfl, rfl, rfl⟩

/-- Claim C6: relevance is the rounded percentage of matched key phrases over
min(5, #keyPhrases), clamped to [0, 100]; each phrase counts at most once; an
empty answer yields 0; and the spec example evaluates to 67. -/
theorem relevance_scoring (answer : String) (kp : List String) (hkp : kp ≠ []) :
    (answer ≠ "" →
      relevanceScoreCalc answer kp =
        max 0 (min 100
          ⌊100 * (matchedPhrases (answer.data.map asciiToLower) kp : ℚ)
            / ((min 5 kp.length : ℕ) : ℚ) + 1 / 2⌋)) ∧
    relevanceScoreCalc "" kp = 0 ∧
    matchedPhrases (answer.data.map asciiToLower) kp ≤ kp.length ∧
    relevanceScoreCalc " react hooks are great for state management"
      ["state", "hook", "effect"] = 67 := by
  refine ⟨?_, by rw [relevanceScoreCalc, if_pos rfl], List.length_filter_le _ _, ?_⟩
  · intro hans
    unfold relevanceScoreCalc
    rw [if_neg hans]
    have harg : (matchedPhrases (answer.data.map asciiToLower) kp : ℚ)
        / ((min 5 kp.length : ℕ) : ℚ) * 100
        = 100 * (matchedPhrases (answer.data.map asciiToLower) kp : ℚ)
          / ((min 5 kp.length : ℕ) : ℚ) := by ring
    rw [harg, jsRound_eq_floor]
    have hdpos : (0 : ℚ) < ((min 5 kp.length : ℕ) : ℚ) := by
      have hlen : kp.length ≠ 0 := by simpa [List.length_eq_zero] using hkp
      have : 0 < min 5 kp.length := by omega
      exact_mod_cast this
    have hnn : (0 : ℚ) ≤ 100 * (matchedPhrases (answer.data.map asciiToLower) kp : ℚ)
        / ((min 5 kp.length : ℕ) : ℚ) := by positivity
    have h0 : (0 : ℤ) ≤ ⌊100 * (matchedPhrases (answer.data.map asciiToLower) kp : ℚ)
        / ((min 5 kp.length : ℕ) : ℚ) + 1 / 2⌋ := by
      apply Int.le_floor.mpr
      rw [Int.cast_zero]
      linarith
    omega
  · have hm : matchedPhrases
        (" react hooks are great for state management".data.map asciiToLower)
        ["state", "hook", "effect"] = 2 := by decide
    unfold relevanceScoreCalc
    rw [if_neg (by decide), hm]
    norm_num [jsRound]
    decide

/-- Claim C6 witness: the theorem applied to the spec example answer and key
phrases. -/
theorem relevance_scoring_witness :
    (["state", "hook", "effect"] : List String) ≠ [] ∧
    relevanceScoreCalc " react hooks are great for state management"
      ["state", "hook", "effect"] = 67 :=
  ⟨by decide,
    (relevance_scoring " react hooks are great for state management"
      ["state", "hook", "effect"] (by decide)).2.2.2⟩

/-- Claim C7 counterexample: on the empty answer text the code returns 0
while the claimed formula (70 plus bonuses minus penalties, capped at 40
under 50 characters, clamped to [0, 100]) yields 40, so the claim does not
hold for every answer text. -/
theorem communication_empty_counterexample :
    evaluateCommunication "" = 0 ∧ specCommunicationScore "" = 40 ∧
    evaluateCommunication "" ≠ specCommunicationScore "" := by decide

/-- Claim C7 as amended: for every non-empty answer text the communication
score is 70 minus the summed pattern penalties plus the summed bonuses,
capped at 40 whenever the text is shorter than 50 characters, clamped to
[0, 100]; in particular any text under 50 characters scores at most 40. -/
theorem communication_formula (text : String) (h : text ≠ "") :
    evaluateCommunication text = specCommunicationScore text ∧
    evaluateCommunication text =
      max 0 (min 100 (if text.length < 50
        then min (70 - grammarPenalties text.data + positiveBonuses text.data) 40
        else 70 - grammarPenalties text.data + positiveBonuses text.data)) ∧
    (text.length < 50 → evaluateCommunication text ≤ 40) := by
  simp only [evaluateCommunication, specCommunicationScore, if_neg h]
  refine ⟨trivial, trivial, ?_⟩
  intro hlen
  simp only [if_pos hlen]
  omega

/-- Claim C7 witness: a 23-character answer containing four bonus-triggering
technical terms still scores at most 40. -/
theorem communication_formula_witness :
    ("state hook api function" : String) ≠ "" ∧
    ("state hook api function" : String).length < 50 ∧
    evaluateCommunication "state hook api function" ≤ 40 :=
  ⟨by decide, by decide,
    (communication_formula "state hook api function" (by decide)).2.2 (by decide)⟩

/-- Claim C9 counterexample: with all three averages equal the strength and
improvement lines both name relevance, while the claimed tie-break order
(confidence first) would name confidence. -/
theorem feedback_tie_break_counterexample :
    strengthFeedback 50 50 50 = Metric.relevance ∧
    improvementFeedback 50 50 50 = Metric.relevance ∧
    specTieStrength 50 50 50 = Metric.confidence ∧
    specTieImprovement 50 50 50 = Metric.confidence ∧
    Metric.relevance ≠ Metric.confidence := by decide

/-- Claim C9 as amended: the strength line names a highest average and the
improvement line names a lowest average, but ties are broken in the order
relevance, then communication, then confidence, for both lines. -/
theorem feedback_names_extremes (avgConfidence avgRelevance avgCommunication : ℤ) :
    metricAvg avgConfidence avgRelevance avgCommunication
        (strengthFeedback avgConfidence avgRelevance avgCommunication)
      = max avgConfidence (max avgRelevance avgCommunication) ∧
    metricAvg avgConfidence avgRelevance avgCommunication
        (improvementFeedback avgConfidence avgRelevance avgCommunication)
      = min avgConfidence (min avgRelevance avgCommunication) ∧
    strengthFeedback avgConfidence avgRelevance avgCommunication
      = observedTieStrength avgConfidence avgRelevance avgCommunication ∧
    improvementFeedback avgConfidence avgRelevance avgCommunication
      = observedTieImprovement avgConfidence avgRelevance avgCommunication := by
  unfold strengthFeedback improvementFeedback observedTieStrength observedTieImprovement
  refine ⟨?_, ?_, ?_, ?_⟩ <;>
    split_ifs <;>
    try simp only [metricAvg]
  all_goals first
    | rfl
    | omega

/-- The shutdown sequence does not move the question cursor. -/
theorem endInterview_currentQuestion (s : SessionState) :
    (endInterview s).currentQuestion = s.currentQuestion := by
  simp only [endInterview, saveCurrentMetrics, saveAnswerForCurrentQuestion]
  split_ifs <;> rfl

/-- Claim C8: with a non-empty question set, advancing below the last index
increments the cursor by one and clears the live answer and transcript
buffers, staying in bounds; advancing on the last index routes to the
shutdown sequence and leaves the cursor unchanged. -/
theorem advance_routes (s : SessionState) (hq : s.questions ≠ []) :
    (s.currentQuestion < s.questions.length - 1 →
      (nextQuestion s).currentQuestion = s.currentQuestion + 1 ∧
      (nextQuestion s).userAnswer = "" ∧
      (nextQuestion s).speechToText = "" ∧
      (nextQuestion s).currentQuestion < s.questions.length) ∧
    (s.currentQuestion = s.questions.length - 1 →
      nextQuestion s = endInterview (saveCurrentMetrics (saveAnswerForCurrentQuestion s)) ∧
      (nextQuestion s).currentQuestion = s.currentQuestion) := by
  have hlen : s.questions.length ≠ 0 := by simpa [List.length_eq_zero] using hq
  constructor
  · intro hlt
    refine ⟨?_, ?_, ?_, ?_⟩ <;>
      · simp [nextQuestion, if_pos hlt, saveCurrentMetrics, saveAnswerForCurrentQuestion]
        try omega
  · intro heq
    have hnlt : ¬ s.currentQuestion < s.questions.length - 1 := by omega
    constructor
    · simp [nextQuestion, hnlt]
    · simp [nextQuestion, hnlt, endInterview_currentQuestion,
        saveCurrentMetrics, saveAnswerForCurrentQuestion]

/-- Claim C8 witness: the theorem applied at the concrete mid-session state,
whose cursor sits strictly below the last index. -/
theorem advance_routes_witness :
    sampleSession.questions ≠ [] ∧
    sampleSession.currentQuestion < sampleSession.questions.length - 1 ∧
    (nextQuestion sampleSession).currentQuestion = sampleSession.currentQuestion + 1 :=
  ⟨by decide, by decide, ((advance_routes sampleSession (by decide)).1 (by decide)).1⟩

/-- Claim C10: each snapshot appends exactly one entry to each of the three
history arrays, and every operation of the model preserves equality of the
three history lengths; no other operation appends. -/
theorem histories_aligned_invariant (s sStart : SessionState) (faces : List Face)
    (h : historiesAligned s) :
    (saveCurrentMetrics s).confidenceHistory.length = s.confidenceHistory.length + 1 ∧
    (saveCurrentMetrics s).relevanceHistory.length = s.relevanceHistory.length + 1 ∧
    (saveCurrentMetrics s).communicationHistory.length = s.communicationHistory.length + 1 ∧
    historiesAligned (saveCurrentMetrics s) ∧
    historiesAligned (saveAnswerForCurrentQuestion s) ∧
    historiesAligned (nextQuestion s) ∧
    historiesAligned (endInterview s) ∧
    historiesAligned (detectFaceInFlight sStart s faces) := by
  obtain ⟨h1, h2⟩ := h
  refine ⟨by simp [saveCurrentMetrics], by simp [saveCurrentMetrics],
    by simp [saveCurrentMetrics], ⟨?_, ?_⟩, ⟨h1, h2⟩, ?_, ?_, ?_⟩
  · simp [saveCurrentMetrics, h1]
  · simp [saveCurrentMetrics, h2]
  · unfold nextQuestion
    split_ifs <;>
      · constructor <;>
          simp [endInterview, saveCurrentMetrics, saveAnswerForCurrentQuestion, h1, h2] <;>
          split_ifs <;> simp [h1, h2]
  · constructor <;>
      simp [endInterview, saveCurrentMetrics, saveAnswerForCurrentQuestion, h1, h2] <;>
      split_ifs <;> simp [h1, h2]
  · unfold detectFaceInFlight detectFaceComplete
    split_ifs
    · cases faces <;> exact ⟨h1, h2⟩
    · exact ⟨h1, h2⟩

/-- Claim C10 witness: the theorem applied at the concrete mid-session state,
which satisfies the alignment invariant. -/
theorem histories_aligned_invariant_witness :
    historiesAligned sampleSession ∧
    (saveCurrentMetrics sampleSession).confidenceHistory.length
      = sampleSession.confidenceHistory.length + 1 :=
  ⟨⟨rfl, rfl⟩, (histories_aligned_invariant sampleSession sampleSession [] ⟨rfl, rfl⟩).1⟩

/-- Claim C1 (the code violates it): `endInterview` has no re-entrancy
guard, so at the concrete state `sampleSession` a second call appends a
second terminal sample to every history array and performs a second
submission attempt instead of being a no-op. -/
theorem endInterview_reentrant_not_noop :
    (endInterview sampleSession).isShuttingDown = true ∧
    (endInterview sampleSession).confidenceHistory.length = 1 ∧
    (endInterview sampleSession).submitCount = 1 ∧
    (endInterview (endInterview sampleSession)).confidenceHistory.length = 2 ∧
    (endInterview (endInterview sampleSession)).relevanceHistory.length = 2 ∧
    (endInterview (endInterview sampleSession)).communicationHistory.length = 2 ∧
    (endInterview (endInterview sampleSession)).submitCount = 2 ∧
    endInterview (endInterview sampleSession) ≠ endInterview sampleSession := by decide

/-- Claim C2 (the code violates it): `detectFace` checks the shutdown flag
only at entry, so a sample that was in flight when shutdown began still
applies its result on completion: at the concrete state the guard passed
before shutdown, and completing against the post-shutdown state overwrites
the perception cells with confidence 95 and expression happy. -/
theorem inflight_sample_applied_after_shutdown :
    detectFaceGuard sampleSession = true ∧
    (endInterview sampleSession).isShuttingDown = true ∧
    (endInterview sampleSession).cameraActive = false ∧
    (detectFaceInFlight sampleSession (endInterview sampleSession)
      [faceHappy]).perception.confidenceScore = 95 ∧
    (detectFaceInFlight sampleSession (endInterview sampleSession)
      [faceHappy]).perception.facialExpression = Expression.happy ∧
    (detectFaceInFlight sampleSession (endInterview sampleSession)
      [faceHappy]).perception ≠ (endInterview sampleSession).perception := by
  have hguard : detectFaceGuard sampleSession = true := by decide
  have hperc : (endInterview sampleSession).perception
      = { confidenceScore := 0, facialExpression := .unknown, faceDetectionSuccess := 0 } := by
    decide
  have hdom : dominantExpression faceHappy = (Expression.happy, 9 / 10) := by
    norm_num [dominantExpression, dominantLoop, expressionsChecked, faceHappy]
  have hstep : (detectFaceInFlight sampleSession (endInterview sampleSession)
      [faceHappy]).perception
      = applyFacePresent
          { confidenceScore := 0, facialExpression := .unknown, faceDetectionSuccess := 0 }
          faceHappy := by
    simp [detectFaceInFlight, hguard, detectFaceComplete, detectFaceResult, hperc]
  have hC : (applyFacePresent
      { confidenceScore := 0, facialExpression := .unknown, faceDetectionSuccess := 0 }
      faceHappy).confidenceScore = 95 := by
    simp only [applyFacePresent, hdom]
    norm_num [expressionScore, newScore, boundedScore, jsRound]
    decide
  have hE : (applyFacePresent
      { confidenceScore := 0, facialExpression := .unknown, faceDetectionSuccess := 0 }
      faceHappy).facialExpression = Expression.happy := by
    simp only [applyFacePresent, hdom]
    norm_num
  refine ⟨hguard, by decide, by decide, by rw [hstep, hC], by rw [hstep, hE], ?_⟩
  intro heq
  have hcc := congrArg PerceptionState.confidenceScore heq
  rw [hstep, hC, hperc] at hcc
  exact absurd hcc (by decide)

end InterviewInProgress
